import Mathlib

/-
Verification of the design-pattern demonstrations in src/script.js.
Each JS class group is shallowly embedded: objects become structures or
inductives, mutation becomes explicit state passing, thrown errors become
Except values carrying the thrown message string.
-/

namespace Script

/-! ## Singleton (script.js lines 1-25)

A `Singleton` object holds `value = Math.random()`.  Object identity is
modelled by an allocation id (`objId`): two references are identity-equal
exactly when they denote the same allocation.  The static slot
`Singleton.#instance` is the `Option SInstance` state threaded through the
operations.  `Math.random()` is modelled as an ambient stream of rational
values (one candidate value per call site), constrained to [0,1) where a
claim needs that fact. -/

structure SInstance where
  objId : Nat
  value : Rat
deriving DecidableEq, Repr

/-- Embedding of `Singleton.getInstance()` (lines 12-17): if the static slot
is empty, allocate a new instance (fresh id, fresh random value) and store
it; otherwise return the stored instance unchanged. -/
def Singleton.getInstance (freshValue : Rat) (freshId : Nat) :
    Option SInstance → SInstance × Option SInstance
  | some inst => (inst, some inst)
  | none =>
    let inst : SInstance := ⟨freshId, freshValue⟩
    (inst, some inst)

/-- The results of `n` sequential `Singleton.getInstance()` calls starting
from static slot state `st`; `vals k` is the value `Math.random()` would
produce at call index `k`, and the call index also serves as the fresh
allocation id. -/
def Singleton.callSeq (vals : Nat → Rat) : Nat → Nat → Option SInstance → List SInstance
  | 0, _, _ => []
  | n + 1, k, st =>
    let p := Singleton.getInstance (vals k) k st
    p.1 :: Singleton.callSeq vals n (k + 1) p.2

/-- Embedding of `new Singleton()` (constructor, lines 5-10): throws when the
static slot is already occupied, otherwise produces a fresh object.  The
constructor never writes the static slot (only `getInstance` does), so the
returned slot state is always the input state. -/
def Singleton.construct (freshValue : Rat) (freshId : Nat) (st : Option SInstance) :
    Except String SInstance × Option SInstance :=
  match st with
  | some _ => (.error "Cannot instantiate directly. Use Singleton.getInstance() instead.", st)
  | none => (.ok ⟨freshId, freshValue⟩, st)

/-! ## Factory Method (script.js lines 30-59) -/

inductive Vehicle where
  | car
  | bike
deriving DecidableEq, Repr

/-- Embedding of the overridden `create()` methods of `Car` (line 37) and
`Bike` (line 43). -/
def Vehicle.create : Vehicle → String
  | .car => "Car created"
  | .bike => "Bike created"

/-- Embedding of `VehicleFactory.getVehicle(type)` (lines 49-58): a switch on
the type key; the default branch throws. -/
def VehicleFactory.getVehicle (type : String) : Except String Vehicle :=
  match type with
  | "car" => .ok .car
  | "bike" => .ok .bike
  | _ => .error "Unknown vehicle type"

/-! ## Decorator (script.js lines 102-126)

A component is either the base `Coffee` or a decorator wrapping exactly one
inner component, matching the singly-linked wrapping chain of the source. -/

inductive Component where
  | coffee
  | milkDecorator (inner : Component)
  | sugarDecorator (inner : Component)
deriving DecidableEq, Repr

/-- Embedding of `cost()`: `Coffee.cost` returns 5 (line 104),
`MilkDecorator.cost` returns the inner cost plus 2 (line 114),
`SugarDecorator.cost` returns the inner cost plus 1 (line 124). -/
def Component.cost : Component → Nat
  | .coffee => 5
  | .milkDecorator c => c.cost + 2
  | .sugarDecorator c => c.cost + 1

/-- The two decorator constructors, as a tag so that a nesting of N
decorators can be described by a list. -/
inductive Dec where
  | milk
  | sugar
deriving DecidableEq, Repr

/-- The fixed increment each decorator adds to the wrapped cost. -/
def Dec.increment : Dec → Nat
  | .milk => 2
  | .sugar => 1

/-- Wrap a component in one decorator. -/
def Dec.wrap : Dec → Component → Component
  | .milk, c => .milkDecorator c
  | .sugar, c => .sugarDecorator c

/-- Nest a list of decorators around a component (head of the list is the
outermost layer). -/
def wrapAll (ds : List Dec) (c : Component) : Component :=
  ds.foldr Dec.wrap c

/-! ## Composite (script.js lines 139-161)

The example adds only `Leaf` objects to a composite, and `Composite` itself
has no `getName`, so children are modelled as leaves. -/

structure Leaf where
  name : String
deriving DecidableEq, Repr

/-- Embedding of `Leaf.getName()` (lines 144-146). -/
def Leaf.getName (l : Leaf) : String := l.name

structure Composite where
  children : List Leaf
deriving DecidableEq, Repr

/-- Embedding of `new Composite()` (lines 150-152): starts with no children. -/
def Composite.create : Composite := ⟨[]⟩

/-- Embedding of `Composite.add(child)` (lines 154-156): pushes onto the end
of the children array. -/
def Composite.add (c : Composite) (child : Leaf) : Composite :=
  ⟨c.children ++ [child]⟩

/-- Embedding of `Composite.getNames()` (lines 158-160): maps `getName` over
the children in order. -/
def Composite.getNames (c : Composite) : List String :=
  c.children.map Leaf.getName

/-! ## Observer (script.js lines 205-228)

`Observer.update` prints one console line; the embedding returns that line,
and `notifyObservers` returns the ordered list of lines it causes. -/

structure Observer where
  name : String
deriving DecidableEq, Repr

/-- Embedding of `Observer.update(message)` (lines 225-227): the console line
it prints. -/
def Observer.update (o : Observer) (message : String) : String :=
  o.name ++ " received: " ++ message

structure Subject where
  observers : List Observer
deriving DecidableEq, Repr

/-- Embedding of `new Subject()` (lines 206-208). -/
def Subject.create : Subject := ⟨[]⟩

/-- Embedding of `Subject.addObserver(observer)` (lines 210-212): an
unconditional push onto the end of the observers array. -/
def Subject.addObserver (s : Subject) (o : Observer) : Subject :=
  ⟨s.observers ++ [o]⟩

/-- Embedding of `Subject.notifyObservers(message)` (lines 214-216): calls
`update(message)` on each observer in array order; the result is the ordered
list of console lines produced. -/
def Subject.notifyObservers (s : Subject) (message : String) : List String :=
  s.observers.map (fun o => o.update message)

/-! ## Chain of Responsibility (script.js lines 246-296)

A handler object is its concrete class plus an optional next handler
(`nextHandler`, default null).  `handle` follows the source dispatch: each
concrete class checks its own predicate and otherwise calls
`super.handle(request)`, which forwards to `nextHandler` when present and
returns the sentinel string when not. -/

inductive HandlerClass where
  | base
  | low
  | medium
  | high
deriving DecidableEq, Repr

inductive HandlerObj where
  | mk (cls : HandlerClass) (next : Option HandlerObj)

/-- Embedding of `handle(request)` across the `Handler` hierarchy
(lines 251-285).  `superResult` is the value `super.handle(request)` (the
base-class body, lines 251-256) would return. -/
def HandlerObj.handle : HandlerObj → String → String
  | .mk cls next, request =>
    let superResult : String :=
      match next with
      | some nh => nh.handle request
      | none => "No handler available for this request."
    match cls with
    | .base => superResult
    | .low => if request = "low" then "Handled by LowLevelHandler" else superResult
    | .medium => if request = "medium" then "Handled by MediumLevelHandler" else superResult
    | .high => if request = "high" then "Handled by HighLevelHandler" else superResult

/-- The concrete predicate each handler class checks (the `if` conditions at
lines 262, 271, 280; the base class matches nothing). -/
def HandlerClass.matchesReq : HandlerClass → String → Bool
  | .base, _ => false
  | .low, r => r = "low"
  | .medium, r => r = "medium"
  | .high, r => r = "high"

/-- The chain wired at lines 288-290: low → medium → high. -/
def lowLevelHandler : HandlerObj :=
  .mk .low (some (.mk .medium (some (.mk .high none))))

/-! ## Iterator (script.js lines 299-331)

An `Iterator` holds `collection` (a reference to an array of strings) and a
cursor `index`.  `Collection.getIterator()` (line 329) passes `this.items`
itself, not a copy, so the iterator's `collection` field and the
collection's `items` field are the same array object. -/

structure Iterator where
  collection : List String
  index : Nat
deriving DecidableEq, Repr

/-- Embedding of `Iterator.hasNext()` (lines 305-307). -/
def Iterator.hasNext (it : Iterator) : Bool :=
  it.index < it.collection.length

/-- Embedding of `Iterator.next()` (lines 309-315): returns the element at
the cursor and the iterator with the cursor advanced, or throws. -/
def Iterator.next (it : Iterator) : Except String (String × Iterator) :=
  if h : it.index < it.collection.length then
    .ok (it.collection.get ⟨it.index, h⟩, { it with index := it.index + 1 })
  else
    .error "No more elements"

structure Collection where
  items : List String
deriving DecidableEq, Repr

/-- Embedding of `Collection.add(item)` (lines 324-326). -/
def Collection.add (c : Collection) (item : String) : Collection :=
  ⟨c.items ++ [item]⟩

/-- Embedding of `Collection.getIterator()` (lines 328-330): the new
iterator's `collection` field is the collection's own `items` array. -/
def Collection.getIterator (c : Collection) : Iterator :=
  ⟨c.items, 0⟩

/-- Models `collection.add(x)` performed AFTER `getIterator()`: because the
iterator's `collection` field aliases the collection's `items` array, the
push is visible through the iterator.  The iterator's cursor is untouched. -/
def Iterator.sharedPush (it : Iterator) (x : String) : Iterator :=
  { it with collection := it.collection ++ [x] }

/-- One round of the usage loop `while (iterator.hasNext()) ... next()`
(lines 341-343), with explicit fuel for structural recursion. -/
def Iterator.drainFuel : Nat → Iterator → List String
  | 0, _ => []
  | fuel + 1, it =>
    if it.hasNext then
      match it.next with
      | .ok (x, it') => x :: Iterator.drainFuel fuel it'
      | .error _ => []
    else []

/-- The full sequence of elements produced by running the usage loop
`while (iterator.hasNext()) console.log(iterator.next())` to completion. -/
def Iterator.drain (it : Iterator) : List String :=
  Iterator.drainFuel (it.collection.length - it.index) it

/-! ## Command (script.js lines 346-431)

Receivers print fixed console lines; the embedding returns them.  A concrete
command is one of the four (command, receiver) pairings built in the usage
section.  `RemoteControl.command` starts as null. -/

def Light.turnOn : String := "Light is ON"

def Light.turnOff : String := "Light is OFF"

def TV.turnOn : String := "TV is ON"

def TV.turnOff : String := "TV is OFF"

inductive CommandObj where
  | lightOn
  | lightOff
  | tvOn
  | tvOff
deriving DecidableEq, Repr

/-- Embedding of the concrete commands' `execute()` (lines 359-361, 370-372,
381-383, 392-394): each invokes exactly one receiver method, whose console
line is returned. -/
def CommandObj.execute : CommandObj → String
  | .lightOn => Light.turnOn
  | .lightOff => Light.turnOff
  | .tvOn => TV.turnOn
  | .tvOff => TV.turnOff

structure RemoteControl where
  command : Option CommandObj
deriving DecidableEq, Repr

/-- Embedding of `new RemoteControl()` (lines 420-422): the held command
starts as null. -/
def RemoteControl.create : RemoteControl := ⟨none⟩

/-- Embedding of `RemoteControl.setCommand(command)` (lines 424-426). -/
def RemoteControl.setCommand (_ : RemoteControl) (c : CommandObj) : RemoteControl :=
  ⟨some c⟩

/-- Embedding of `RemoteControl.pressButton()` (lines 428-430):
`this.command.execute()`.  When the held command is null, JavaScript raises a
TypeError on the property access; otherwise the held command's `execute()`
runs and its console line is returned. -/
def RemoteControl.pressButton (rc : RemoteControl) : Except String String :=
  match rc.command with
  | none => .error "TypeError"
  | some c => .ok c.execute

/-! ## Helper lemmas -/

/-- Once the static slot holds an instance, every further `getInstance` call
returns exactly that instance. -/
theorem Singleton.callSeq_some (vals : Nat → Rat) (n k : Nat) (i : SInstance) :
    Singleton.callSeq vals n k (some i) = List.replicate n i := by
  induction n generalizing k with
  | zero => rfl
  | succ n ih => simp [Singleton.callSeq, Singleton.getInstance, ih, List.replicate]

/-- Folding `add` over a list of leaves appends their names to `getNames`. -/
theorem Composite.foldl_add_getNames (leaves : List Leaf) (c : Composite) :
    (leaves.foldl Composite.add c).getNames = c.getNames ++ leaves.map Leaf.getName := by
  induction leaves generalizing c with
  | nil => simp
  | cons l ls ih =>
    rw [List.foldl_cons, ih]
    simp [Composite.add, Composite.getNames]

/-- With enough fuel, the usage loop produces exactly the suffix of the
shared array from the cursor on. -/
theorem Iterator.drainFuel_eq_drop (fuel : Nat) (it : Iterator)
    (hf : it.collection.length - it.index ≤ fuel) :
    Iterator.drainFuel fuel it = it.collection.drop it.index := by
  induction fuel generalizing it with
  | zero =>
    rw [Iterator.drainFuel, List.drop_eq_nil_of_le (by omega)]
  | succ fuel ih =>
    rw [Iterator.drainFuel]
    by_cases hn : it.index < it.collection.length
    · simp [Iterator.hasNext, Iterator.next, hn]
      rw [ih ⟨it.collection, it.index + 1⟩
        (show it.collection.length - (it.index + 1) ≤ fuel by omega)]
      exact (List.drop_eq_getElem_cons hn).symm
    · simp [Iterator.hasNext, hn]
      omega

/-- The usage loop `while (hasNext) next()` produces the suffix of the shared
array from the cursor on. -/
theorem Iterator.drain_eq_drop (it : Iterator) :
    it.drain = it.collection.drop it.index :=
  Iterator.drainFuel_eq_drop _ _ (le_refl _)

/-! ## Claims -/

/-- C1: for every sequence of N calls to `Singleton.getInstance()` (starting
from an empty static slot), every call returns the identical instance — the
one allocated by the first call — and its `value` field is the same number,
in [0,1) given that `Math.random()` only produces values in [0,1). -/
theorem singleton_getInstance_identity (vals : Nat → Rat) (n : Nat)
    (hrange : ∀ k, 0 ≤ vals k ∧ vals k < 1) (r : SInstance)
    (hr : r ∈ Singleton.callSeq vals n 0 none) :
    r = ⟨0, vals 0⟩ ∧ r.value = vals 0 ∧ 0 ≤ r.value ∧ r.value < 1 := by
  cases n with
  | zero => simp [Singleton.callSeq] at hr
  | succ m =>
    have h1 : Singleton.callSeq vals (m + 1) 0 none =
        (⟨0, vals 0⟩ : SInstance) :: List.replicate m ⟨0, vals 0⟩ := by
      simp [Singleton.callSeq, Singleton.getInstance, Singleton.callSeq_some]
    rw [h1] at hr
    have hre : r = ⟨0, vals 0⟩ := by
      rcases List.mem_cons.mp hr with h | h
      · exact h
      · exact List.eq_of_mem_replicate h
    subst hre
    exact ⟨rfl, rfl, (hrange 0).1, (hrange 0).2⟩

/-- C1 witness: one concrete run (random stream constantly 0, a single
call): the returned instance is the first allocation and its value is 0,
which lies in [0,1). -/
theorem singleton_getInstance_identity_witness :
    (⟨0, 0⟩ : SInstance) = ⟨0, 0⟩ ∧ (⟨0, 0⟩ : SInstance).value = 0 ∧
      0 ≤ (⟨0, 0⟩ : SInstance).value ∧ (⟨0, 0⟩ : SInstance).value < 1 :=
  singleton_getInstance_identity (fun _ => 0) 1
    (fun _ => ⟨le_refl 0, by norm_num⟩) ⟨0, 0⟩
    (by simp [Singleton.callSeq, Singleton.getInstance])

/-- C2: `hasNext()` is true exactly when the cursor is strictly below the
length of the underlying sequence; a successful `next()` returns the element
at the cursor and advances the cursor by one; `next()` with `hasNext()`
false throws the out-of-range error; and on the 3-item usage collection the
first three `next()` calls succeed in order, after which `hasNext()` is
false and a fourth `next()` fails. -/
theorem iterator_hasNext_next_spec :
    (∀ it : Iterator, it.hasNext = true ↔ it.index < it.collection.length) ∧
    (∀ (it : Iterator) (h : it.index < it.collection.length),
      it.next = .ok (it.collection.get ⟨it.index, h⟩, ⟨it.collection, it.index + 1⟩)) ∧
    (∀ it : Iterator, it.hasNext = false → it.next = .error "No more elements") ∧
    ((Collection.mk ["Item 1", "Item 2", "Item 3"]).getIterator
        = ⟨["Item 1", "Item 2", "Item 3"], 0⟩ ∧
      Iterator.hasNext ⟨["Item 1", "Item 2", "Item 3"], 0⟩ = true ∧
      Iterator.next ⟨["Item 1", "Item 2", "Item 3"], 0⟩
        = .ok ("Item 1", ⟨["Item 1", "Item 2", "Item 3"], 1⟩) ∧
      Iterator.hasNext ⟨["Item 1", "Item 2", "Item 3"], 1⟩ = true ∧
      Iterator.next ⟨["Item 1", "Item 2", "Item 3"], 1⟩
        = .ok ("Item 2", ⟨["Item 1", "Item 2", "Item 3"], 2⟩) ∧
      Iterator.hasNext ⟨["Item 1", "Item 2", "Item 3"], 2⟩ = true ∧
      Iterator.next ⟨["Item 1", "Item 2", "Item 3"], 2⟩
        = .ok ("Item 3", ⟨["Item 1", "Item 2", "Item 3"], 3⟩) ∧
      Iterator.hasNext ⟨["Item 1", "Item 2", "Item 3"], 3⟩ = false ∧
      Iterator.next ⟨["Item 1", "Item 2", "Item 3"], 3⟩ = .error "No more elements") := by
  refine ⟨fun it => ?_, fun it h => ?_, fun it h => ?_,
    rfl, rfl, rfl, rfl, rfl, rfl, rfl, rfl, rfl⟩
  · simp [Iterator.hasNext]
  · simp [Iterator.next, h]
  · simp [Iterator.hasNext] at h
    simp [Iterator.next, h]

/-- C3: a handler whose predicate matches returns its own result string no
matter what its `nextHandler` is (so the next handler is never consulted); a
non-matching handler with a next handler returns exactly what that next
handler returns; a non-matching handler with no next handler returns the
fixed sentinel; and on the wired low → medium → high chain the four usage
requests produce the four documented strings. -/
theorem handler_chain_spec :
    (∀ next : Option HandlerObj,
      HandlerObj.handle (.mk .low next) "low" = "Handled by LowLevelHandler") ∧
    (∀ next : Option HandlerObj,
      HandlerObj.handle (.mk .medium next) "medium" = "Handled by MediumLevelHandler") ∧
    (∀ next : Option HandlerObj,
      HandlerObj.handle (.mk .high next) "high" = "Handled by HighLevelHandler") ∧
    (∀ (cls : HandlerClass) (nh : HandlerObj) (r : String),
      cls.matchesReq r = false →
      HandlerObj.handle (.mk cls (some nh)) r = nh.handle r) ∧
    (∀ (cls : HandlerClass) (r : String),
      cls.matchesReq r = false →
      HandlerObj.handle (.mk cls none) r = "No handler available for this request.") ∧
    lowLevelHandler.handle "low" = "Handled by LowLevelHandler" ∧
    lowLevelHandler.handle "medium" = "Handled by MediumLevelHandler" ∧
    lowLevelHandler.handle "high" = "Handled by HighLevelHandler" ∧
    lowLevelHandler.handle "unknown" = "No handler available for this request." := by
  refine ⟨fun next => ?_, fun next => ?_, fun next => ?_,
    fun cls nh r h => ?_, fun cls r h => ?_, rfl, rfl, rfl, rfl⟩
  · rw [HandlerObj.handle.eq_def]
    simp
  · rw [HandlerObj.handle.eq_def]
    simp
  · rw [HandlerObj.handle.eq_def]
    simp
  · cases cls <;> rw [HandlerObj.handle.eq_def] <;> simp_all [HandlerClass.matchesReq]
  · cases cls <;> rw [HandlerObj.handle.eq_def] <;> simp_all [HandlerClass.matchesReq]

/-- C4: `MilkDecorator` adds 2 and `SugarDecorator` adds 1 to the wrapped
component's cost; nesting any list of decorators yields the base cost plus
the sum of the increments; the two wrapping orders agree on the final cost
for every base component; and on the usage example the base costs 5, milk
alone costs 7, both double wrappings cost 8, and the one-layer intermediates
differ (7 for milk, 6 for sugar). -/
theorem decorator_cost_composition :
    (∀ c : Component, (Component.milkDecorator c).cost = c.cost + 2) ∧
    (∀ c : Component, (Component.sugarDecorator c).cost = c.cost + 1) ∧
    (∀ (ds : List Dec) (c : Component),
      (wrapAll ds c).cost = c.cost + (ds.map Dec.increment).sum) ∧
    (∀ c : Component,
      (Component.sugarDecorator (Component.milkDecorator c)).cost =
        (Component.milkDecorator (Component.sugarDecorator c)).cost) ∧
    Component.coffee.cost = 5 ∧
    (Component.milkDecorator .coffee).cost = 7 ∧
    (Component.sugarDecorator (Component.milkDecorator .coffee)).cost = 8 ∧
    (Component.milkDecorator (Component.sugarDecorator .coffee)).cost = 8 ∧
    (Component.milkDecorator .coffee).cost = 7 ∧
    (Component.sugarDecorator .coffee).cost = 6 := by
  refine ⟨fun c => rfl, fun c => rfl, ?_, ?_, rfl, rfl, rfl, rfl, rfl, rfl⟩
  · intro ds c
    induction ds with
    | nil => simp [wrapAll]
    | cons d ds ih =>
      cases d <;> simp [wrapAll, Dec.wrap, Component.cost, Dec.increment] at * <;> omega
  · intro c
    simp [Component.cost]

/-- C5: `VehicleFactory.getVehicle` maps "car" to a `Car` whose `create()`
returns "Car created", maps "bike" to a `Bike` whose `create()` returns
"Bike created", and throws the invalid-argument error on every other key. -/
theorem vehicleFactory_getVehicle_spec :
    VehicleFactory.getVehicle "car" = .ok .car ∧
    Vehicle.create .car = "Car created" ∧
    VehicleFactory.getVehicle "bike" = .ok .bike ∧
    Vehicle.create .bike = "Bike created" ∧
    ∀ k : String, k ≠ "car" → k ≠ "bike" →
      VehicleFactory.getVehicle k = .error "Unknown vehicle type" := by
  refine ⟨rfl, rfl, rfl, rfl, ?_⟩
  intro k hcar hbike
  unfold VehicleFactory.getVehicle
  split <;> simp_all

/-- C5 witness: the unrecognized key "truck" is rejected with the
invalid-argument error. -/
theorem vehicleFactory_getVehicle_spec_witness :
    VehicleFactory.getVehicle "truck" = .error "Unknown vehicle type" :=
  vehicleFactory_getVehicle_spec.2.2.2.2 "truck" (by decide) (by decide)

/-- C6: constructing `Singleton` directly while the static slot already
holds an instance throws the invalid-operation error, and the stored
instance is unchanged by the failed attempt. -/
theorem singleton_construct_fails (v : Rat) (fid : Nat) (i : SInstance) :
    Singleton.construct v fid (some i) =
      (.error "Cannot instantiate directly. Use Singleton.getInstance() instead.", some i) :=
  rfl

/-- C7 counterexample: the claim that the iterator traverses a snapshot
taken at creation time fails at a concrete input.  For the one-item
collection, an `add` performed after `getIterator()` changes the sequence
the iterator produces from ["Item 1"] to ["Item 1", "Item 2"], because the
iterator's `collection` field is the collection's own live `items` array. -/
theorem iterator_snapshot_counterexample :
    ((Collection.mk ["Item 1"]).getIterator.sharedPush "Item 2").drain
        = ["Item 1", "Item 2"] ∧
    (Collection.mk ["Item 1"]).getIterator.drain = ["Item 1"] ∧
    (["Item 1", "Item 2"] : List String) ≠ ["Item 1"] :=
  ⟨rfl, rfl, by decide⟩

/-- C7 amended: the iterator shares the collection's live `items` array
rather than a snapshot: an `add` performed after the iterator is created
appends the new item to the sequence the iterator's subsequent
hasNext/next calls produce. -/
theorem iterator_shares_live_array (it : Iterator) (x : String)
    (h : it.index ≤ it.collection.length) :
    (it.sharedPush x).drain = it.drain ++ [x] := by
  rw [Iterator.drain_eq_drop, Iterator.drain_eq_drop, Iterator.sharedPush,
    List.drop_append_of_le_length h]

/-- C7 amended witness: on the fresh iterator over ["Item 1"], adding "X"
through the shared array extends the produced sequence by "X". -/
theorem iterator_shares_live_array_witness :
    (Iterator.sharedPush ⟨["Item 1"], 0⟩ "X").drain
      = Iterator.drain ⟨["Item 1"], 0⟩ ++ ["X"] :=
  iterator_shares_live_array ⟨["Item 1"], 0⟩ "X" (by decide)

/-- C8: building a composite by any sequence of `add(child)` calls makes
`getNames()` return exactly the children's names in insertion order, and the
usage example with leaves "Leaf 1" then "Leaf 2" returns exactly
["Leaf 1", "Leaf 2"]. -/
theorem composite_getNames_insertion_order :
    (∀ leaves : List Leaf,
      (leaves.foldl Composite.add Composite.create).getNames = leaves.map Leaf.getName) ∧
    ((Composite.create.add ⟨"Leaf 1"⟩).add ⟨"Leaf 2"⟩).getNames = ["Leaf 1", "Leaf 2"] := by
  refine ⟨fun leaves => ?_, rfl⟩
  rw [Composite.foldl_add_getNames]
  simp [Composite.create, Composite.getNames]

/-- C9: `addObserver` appends the given observer to the end of the list
unconditionally — in particular an observer already present is appended
again, raising its multiplicity — and `notifyObservers(message)` produces
exactly one `update(message)` call per list entry, in insertion order. -/
theorem subject_addObserver_notify_order :
    (∀ (s : Subject) (o : Observer), (s.addObserver o).observers = s.observers ++ [o]) ∧
    (∀ (s : Subject) (o : Observer), o ∈ s.observers →
      (s.addObserver o).observers.count o = s.observers.count o + 1) ∧
    (∀ (s : Subject) (msg : String),
      (s.notifyObservers msg).length = s.observers.length) ∧
    (∀ (s : Subject) (msg : String) (i : Nat),
      (s.notifyObservers msg)[i]? = (s.observers[i]?).map (fun o => o.update msg)) := by
  refine ⟨fun s o => rfl, fun s o _ => ?_, fun s msg => ?_, fun s msg i => ?_⟩
  · simp [Subject.addObserver, List.count_append]
  · simp [Subject.notifyObservers]
  · simp [Subject.notifyObservers]

/-- C10: a fresh `RemoteControl` holds a null command, so `pressButton()`
before any `setCommand` fails with the runtime TypeError from dereferencing
null rather than being a no-op, whereas after `setCommand(c)` it runs
exactly `c.execute()`. -/
theorem remoteControl_pressButton_null :
    RemoteControl.create.command = none ∧
    RemoteControl.create.pressButton = .error "TypeError" ∧
    (∀ (rc : RemoteControl) (c : CommandObj),
      (rc.setCommand c).pressButton = .ok c.execute) :=
  ⟨rfl, rfl, fun _ _ => rfl⟩

end Script
